import Mathlib

/-!
Verification of `scripts/setup-config.py` (Inkflow repository).

The script is an interactive configuration collector: it prompts the
operator for eight answers (two required, six with defaults), derives a
refresh interval in milliseconds from the hours answer, builds a nested
configuration object, and writes it as indented JSON to `data/config.json`.

The embedding below models:
  * `pyStrip`      — Python `str.strip()` restricted to the whitespace
                     code points the script can realistically see;
  * `get_required` / `get_input` — the prompt helper `get_input`, with the
                     interactive session modelled as a list of input lines;
  * `pyInt`        — Python `int(str)` on ASCII strings (surrounding
                     whitespace, an optional sign, digits with optional
                     single underscores between them);
  * `collectT`     — the eight prompt calls of `main` in source order,
                     also recording a trace of the prompt invocations
                     (label and default of each call);
  * `main`         — the whole run: collection, the `int(...) * 60*60*1000`
                     derivation, configuration construction, and the two
                     file-system effects (`os.makedirs("data")`, write of
                     `data/config.json`) as an event list;
  * `serialize`    — `json.dump(config, f, indent=2)` for this fixed shape;
  * `FS` / `runFS` — a small file-system model to state claims about what
                     a run changes on disk.
-/

set_option maxRecDepth 16384

namespace Inkflow

/-- Whitespace as stripped by Python `str.strip()`, restricted to ASCII
control whitespace plus NEL and NBSP (tab, LF, VT, FF, CR, FS, GS, RS, US,
space, U+0085, U+00A0). -/
def pyIsSpace (c : Char) : Bool :=
  c.toNat = 9 || c.toNat = 10 || c.toNat = 11 || c.toNat = 12 || c.toNat = 13 ||
  c.toNat = 28 || c.toNat = 29 || c.toNat = 30 || c.toNat = 31 || c.toNat = 32 ||
  c.toNat = 133 || c.toNat = 160

/-- Python `s.strip()`: remove leading and trailing whitespace. -/
def pyStrip (s : String) : String :=
  String.mk (((s.data.dropWhile pyIsSpace).reverse.dropWhile pyIsSpace).reverse)

/-- The required-field loop of `get_input` (the `else` branch, lines 16-20
of the script): read lines until one strips to a non-empty string and
return that stripped value together with the unconsumed lines. `none`
models the session ending (EOF) before a non-empty line arrives. -/
def get_required : List String → Option (String × List String)
  | [] => none
  | line :: rest =>
    if pyStrip line = "" then get_required rest
    else some (pyStrip line, rest)

/-- `get_input(prompt, default)` (lines 11-20): on a truthy default
(`if default:` — so a non-`None`, non-empty default) read one line, strip
it, and return it if non-empty, else return the default; on a falsy
default (no default, or the empty string) loop until a non-empty stripped
line arrives. Returns the answer and the remaining input lines. -/
def get_input (default : Option String) (input : List String) :
    Option (String × List String) :=
  if default.getD "" = "" then
    get_required input
  else
    match input with
    | [] => none
    | line :: rest =>
      some (if pyStrip line = "" then default.getD "" else pyStrip line, rest)

/-- Digit run of a Python integer literal after the optional sign:
one or more ASCII digits, with single underscores allowed between digits
(`int("1_0") = 10`), evaluated to its numeric value. -/
def pyDigitsAux (acc : Nat) : List Char → Option Nat
  | [] => some acc
  | c :: cs =>
    if c.isDigit then pyDigitsAux (acc * 10 + (c.toNat - 48)) cs
    else if c = '_' then
      match cs with
      | [] => none
      | d :: cs' =>
        if d.isDigit then pyDigitsAux (acc * 10 + (d.toNat - 48)) cs'
        else none
    else none

/-- Value of a non-empty digit run (must start with a digit). -/
def pyDigits : List Char → Option Nat
  | [] => none
  | c :: cs => if c.isDigit then pyDigitsAux (c.toNat - 48) cs else none

/-- Python `int(s)` on an ASCII decimal string: strip surrounding
whitespace, read an optional single `+` or `-` sign, then a digit run.
`none` models the `ValueError` raised on any other input. -/
def pyInt (s : String) : Option Int :=
  match (pyStrip s).data with
  | '+' :: rest => (pyDigits rest).map (fun n => (n : Int))
  | '-' :: rest => (pyDigits rest).map (fun n => -(n : Int))
  | cs => (pyDigits cs).map (fun n => (n : Int))

/-- One prompt invocation: its display label and its default. -/
abbrev PromptCall := String × Option String

/-- `get_input` instrumented with a prompt-invocation trace: threads the
remaining input lines together with the list of prompt calls made so far,
appending this call's label and default. -/
def get_inputL (label : String) (default : Option String)
    (st : List String × List PromptCall) :
    Option (String × (List String × List PromptCall)) :=
  Option.map (fun p => (p.1, (p.2, st.2 ++ [(label, default)])))
    (get_input default st.1)

/-- The eight answers collected by `main` (lines 28-48), in source order. -/
structure Answers where
  wifi_ssid : String
  wifi_password : String
  server_url : String
  weather_city : String
  weather_lat : String
  weather_lon : String
  weather_units : String
  refresh_hours : String
deriving DecidableEq, Repr

/-- The prompt sequence of `main`, lines 28-48 of the script. -/
def promptCalls : List PromptCall :=
  [("WiFi SSID", none),
   ("WiFi Password", none),
   ("Image URL (JPEG)", some "http://httpbin.org/image/jpeg"),
   ("City name", some "Seattle"),
   ("Latitude", some "47.6062"),
   ("Longitude", some "-122.3321"),
   ("Temperature units (fahrenheit/celsius)", some "fahrenheit"),
   ("Refresh interval (hours)", some "24")]

/-- The collection phase of `main` (lines 28-48): the eight `get_input`
calls in source order, threading the input lines and recording the trace
of prompt invocations. Fails (no answers, no effects) if the input lines
run out. -/
def collectT (input : List String) :
    Option (Answers × List String × List PromptCall) :=
  Option.bind (get_inputL "WiFi SSID" none (input, [])) fun r1 =>
  Option.bind (get_inputL "WiFi Password" none r1.2) fun r2 =>
  Option.bind (get_inputL "Image URL (JPEG)"
      (some "http://httpbin.org/image/jpeg") r2.2) fun r3 =>
  Option.bind (get_inputL "City name" (some "Seattle") r3.2) fun r4 =>
  Option.bind (get_inputL "Latitude" (some "47.6062") r4.2) fun r5 =>
  Option.bind (get_inputL "Longitude" (some "-122.3321") r5.2) fun r6 =>
  Option.bind (get_inputL "Temperature units (fahrenheit/celsius)"
      (some "fahrenheit") r6.2) fun r7 =>
  Option.bind (get_inputL "Refresh interval (hours)" (some "24") r7.2) fun r8 =>
  some (⟨r1.1, r2.1, r3.1, r4.1, r5.1, r6.1, r7.1, r8.1⟩, r8.2)

/-- `config["wifi"]`. -/
structure WifiConfig where
  ssid : String
  password : String
deriving DecidableEq, Repr

/-- `config["server"]`. -/
structure ServerConfig where
  url : String
deriving DecidableEq, Repr

/-- `config["weather"]` (insertion order: latitude, longitude, city, units). -/
structure WeatherConfig where
  latitude : String
  longitude : String
  city : String
  units : String
deriving DecidableEq, Repr

/-- `config["update"]`. -/
structure UpdateConfig where
  refreshMs : Int
deriving DecidableEq, Repr

/-- `config["display"]`. -/
structure DisplayGroup where
  width : Nat
  sidebarWidthPct : Nat
deriving DecidableEq, Repr

/-- `config["hardware"]`. -/
structure HardwareConfig where
  wakeButtonPin : Nat
deriving DecidableEq, Repr

/-- The configuration object built at lines 53-77 of the script. -/
structure Config where
  wifi : WifiConfig
  server : ServerConfig
  weather : WeatherConfig
  update : UpdateConfig
  display : DisplayGroup
  hardware : HardwareConfig
deriving DecidableEq, Repr

/-- The `config = { ... }` literal (lines 53-77): answers plus the fixed
constants width 1200, sidebarWidthPct 20, wakeButtonPin 36. -/
def mkConfig (a : Answers) (refresh_ms : Int) : Config :=
  { wifi := { ssid := a.wifi_ssid, password := a.wifi_password },
    server := { url := a.server_url },
    weather := { latitude := a.weather_lat, longitude := a.weather_lon,
                 city := a.weather_city, units := a.weather_units },
    update := { refreshMs := refresh_ms },
    display := { width := 1200, sidebarWidthPct := 20 },
    hardware := { wakeButtonPin := 36 } }

/-- Lower-case hex digit, for `\uXXXX` escapes. -/
def hexDigit (n : Nat) : Char :=
  if n < 10 then Char.ofNat (48 + n) else Char.ofNat (87 + n)

/-- A `\uXXXX` escape for a BMP code unit. -/
def uEscape (n : Nat) : String :=
  "\\u" ++ String.mk [hexDigit (n / 4096 % 16), hexDigit (n / 256 % 16),
                      hexDigit (n / 16 % 16), hexDigit (n % 16)]

/-- JSON string escaping as done by `json.dump` with its default
`ensure_ascii=True`: named escapes for quote, backslash and the common
control characters, `\uXXXX` for other control and all non-ASCII
characters (surrogate pairs beyond the BMP). -/
def escapeChar (c : Char) : String :=
  if c = '"' then "\\\""
  else if c = '\\' then "\\\\"
  else if c = '\n' then "\\n"
  else if c = '\r' then "\\r"
  else if c = '\t' then "\\t"
  else if c.toNat = 8 then "\\b"
  else if c.toNat = 12 then "\\f"
  else if c.toNat < 32 || c.toNat > 126 then
    if c.toNat < 65536 then uEscape c.toNat
    else uEscape (55296 + (c.toNat - 65536) / 1024) ++
         uEscape (56320 + (c.toNat - 65536) % 1024)
  else String.singleton c

/-- A JSON string literal for `s`. -/
def jsonStr (s : String) : String :=
  "\"" ++ String.join (s.data.map escapeChar) ++ "\""

/-- `json.dump(config, f, indent=2)` for the fixed shape built at lines
53-77: 2-space-indented JSON, keys in insertion order, no trailing
newline. -/
def serialize (c : Config) : String :=
  "\x7b\n  \"wifi\": \x7b\n    \"ssid\": " ++ jsonStr c.wifi.ssid ++
  ",\n    \"password\": " ++ jsonStr c.wifi.password ++
  "\n  \x7d,\n  \"server\": \x7b\n    \"url\": " ++ jsonStr c.server.url ++
  "\n  \x7d,\n  \"weather\": \x7b\n    \"latitude\": " ++ jsonStr c.weather.latitude ++
  ",\n    \"longitude\": " ++ jsonStr c.weather.longitude ++
  ",\n    \"city\": " ++ jsonStr c.weather.city ++
  ",\n    \"units\": " ++ jsonStr c.weather.units ++
  "\n  \x7d,\n  \"update\": \x7b\n    \"refreshMs\": " ++ toString c.update.refreshMs ++
  "\n  \x7d,\n  \"display\": \x7b\n    \"width\": " ++ toString c.display.width ++
  ",\n    \"sidebarWidthPct\": " ++ toString c.display.sidebarWidthPct ++
  "\n  \x7d,\n  \"hardware\": \x7b\n    \"wakeButtonPin\": " ++ toString c.hardware.wakeButtonPin ++
  "\n  \x7d\n\x7d"

/-- A file-system effect of the script: `os.makedirs(path, exist_ok=True)`
or the (create-or-truncate) write of a file with given contents. -/
inductive Event where
  | makedirs : String → Event
  | writeFile : String → String → Event
deriving DecidableEq, Repr

/-- A whole run of the script on a list of input lines (lines 22-95):
collect the eight answers, derive `refresh_ms = int(refresh_hours) *
60 * 60 * 1000`, build the configuration object, then perform the two
file-system effects. `none` models a run that dies with an uncaught
exception (bad integer, or input exhausted): no configuration is built
and no effect is performed. -/
def main (input : List String) : Option (Config × List Event) :=
  Option.bind (collectT input) fun r =>
  Option.bind (pyInt r.1.refresh_hours) fun hours =>
  some (mkConfig r.1 (hours * 60 * 60 * 1000),
        [Event.makedirs "data",
         Event.writeFile "data/config.json"
           (serialize (mkConfig r.1 (hours * 60 * 60 * 1000)))])

/-- File-system model: the set of directories known to exist and the
files with their contents (most recent entry first). -/
structure FS where
  dirs : List String
  files : List (String × String)
deriving DecidableEq, Repr

/-- `os.makedirs(p, exist_ok=True)`: create `p` if absent, no-op otherwise. -/
def FS.mkdir (fs : FS) (p : String) : FS :=
  if p ∈ fs.dirs then fs else ⟨p :: fs.dirs, fs.files⟩

/-- `open(p, 'w')` followed by a full write: replace any existing contents
of `p` with `s`. -/
def FS.write (fs : FS) (p s : String) : FS :=
  ⟨fs.dirs, (p, s) :: fs.files.filter (fun q => q.1 ≠ p)⟩

/-- Contents of the file at `p`, if present. -/
def FS.read (fs : FS) (p : String) : Option String :=
  (fs.files.find? (fun q => q.1 = p)).map Prod.snd

/-- Apply one effect to the file system. -/
def applyEvent (fs : FS) : Event → FS
  | .makedirs p => fs.mkdir p
  | .writeFile p s => fs.write p s

/-- The file system after running the script on `input`, starting from
`fs`: a failed run performs no effect at all. -/
def runFS (fs : FS) (input : List String) : FS :=
  match main input with
  | none => fs
  | some (_, evs) => evs.foldl applyEvent fs

/-! ### Helper lemmas -/

/-- Inverting `Option.bind` on a successful result. -/
theorem optBind_eq_some {α β : Type} {o : Option α} {f : α → Option β} {b : β}
    (h : o.bind f = some b) : ∃ a, o = some a ∧ f a = some b := by
  cases o with
  | none => cases h
  | some a => exact ⟨a, rfl, h⟩

/-- Inverting one instrumented prompt call: the underlying `get_input`
succeeded with the same answer and remaining lines, and the trace grew by
exactly this call. -/
theorem get_inputL_inv {label : String} {default : Option String}
    {st : List String × List PromptCall} {r : String × (List String × List PromptCall)}
    (h : get_inputL label default st = some r) :
    get_input default st.1 = some (r.1, r.2.1) ∧
      r.2.2 = st.2 ++ [(label, default)] := by
  rw [get_inputL, Option.map_eq_some'] at h
  obtain ⟨p, hp, h⟩ := h
  subst h
  exact ⟨hp, rfl⟩

/-- Inverting a successful collection phase: the trace is exactly the
eight prompt calls of the script in source order, and the eight answers
come from the eight `get_input` calls chained over the input lines. -/
theorem collectT_inv {input : List String}
    {r : Answers × List String × List PromptCall}
    (h : collectT input = some r) :
    r.2.2 = promptCalls ∧
    ∃ i1 i2 i3 i4 i5 i6 i7,
      get_input none input = some (r.1.wifi_ssid, i1) ∧
      get_input none i1 = some (r.1.wifi_password, i2) ∧
      get_input (some "http://httpbin.org/image/jpeg") i2 = some (r.1.server_url, i3) ∧
      get_input (some "Seattle") i3 = some (r.1.weather_city, i4) ∧
      get_input (some "47.6062") i4 = some (r.1.weather_lat, i5) ∧
      get_input (some "-122.3321") i5 = some (r.1.weather_lon, i6) ∧
      get_input (some "fahrenheit") i6 = some (r.1.weather_units, i7) ∧
      get_input (some "24") i7 = some (r.1.refresh_hours, r.2.1) := by
  unfold collectT at h
  obtain ⟨r1, h1, h⟩ := optBind_eq_some h
  obtain ⟨r2, h2, h⟩ := optBind_eq_some h
  obtain ⟨r3, h3, h⟩ := optBind_eq_some h
  obtain ⟨r4, h4, h⟩ := optBind_eq_some h
  obtain ⟨r5, h5, h⟩ := optBind_eq_some h
  obtain ⟨r6, h6, h⟩ := optBind_eq_some h
  obtain ⟨r7, h7, h⟩ := optBind_eq_some h
  obtain ⟨r8, h8, h⟩ := optBind_eq_some h
  have h' := Option.some.inj h
  subst h'
  obtain ⟨g1, t1⟩ := get_inputL_inv h1
  obtain ⟨g2, t2⟩ := get_inputL_inv h2
  obtain ⟨g3, t3⟩ := get_inputL_inv h3
  obtain ⟨g4, t4⟩ := get_inputL_inv h4
  obtain ⟨g5, t5⟩ := get_inputL_inv h5
  obtain ⟨g6, t6⟩ := get_inputL_inv h6
  obtain ⟨g7, t7⟩ := get_inputL_inv h7
  obtain ⟨g8, t8⟩ := get_inputL_inv h8
  refine ⟨?_, r1.2.1, r2.2.1, r3.2.1, r4.2.1, r5.2.1, r6.2.1, r7.2.1,
    g1, g2, g3, g4, g5, g6, g7, g8⟩
  rw [t8, t7, t6, t5, t4, t3, t2, t1]
  rfl

/-- The required-field loop never returns an empty answer. -/
theorem get_required_ne {input : List String} {v : String} {rest : List String}
    (h : get_required input = some (v, rest)) : v ≠ "" := by
  induction input with
  | nil => cases h
  | cons line tl ih =>
    simp only [get_required] at h
    by_cases hl : pyStrip line = ""
    · rw [if_pos hl] at h
      exact ih h
    · rw [if_neg hl] at h
      have := Option.some.inj h
      have hv : pyStrip line = v := congrArg Prod.fst this
      rw [← hv]
      exact hl

/-- With no default, `get_input` is exactly the required-field loop. -/
theorem get_input_none (input : List String) :
    get_input none input = get_required input := rfl

/-- With the empty string as default (a falsy default in Python),
`get_input` is also exactly the required-field loop. -/
theorem get_input_empty_default (input : List String) :
    get_input (some "") input = get_required input := rfl

/-- With a non-empty default, `get_input` consumes exactly one line:
the default if the line strips to empty, the stripped line otherwise. -/
theorem get_input_default_cons {d : String} (hd : d ≠ "")
    (line : String) (rest : List String) :
    get_input (some d) (line :: rest) =
      some (if pyStrip line = "" then d else pyStrip line, rest) := by
  simp only [get_input, Option.getD]
  rw [if_neg hd]

/-- With a non-empty default, a successful `get_input` never returns an
empty answer. -/
theorem get_input_default_ne {d : String} (hd : d ≠ "")
    {input : List String} {v : String} {rest : List String}
    (h : get_input (some d) input = some (v, rest)) : v ≠ "" := by
  cases input with
  | nil =>
    simp only [get_input, Option.getD] at h
    rw [if_neg hd] at h
    cases h
  | cons line tl =>
    rw [get_input_default_cons hd] at h
    have hv : (if pyStrip line = "" then d else pyStrip line) = v :=
      congrArg Prod.fst (Option.some.inj h)
    rw [← hv]
    by_cases hl : pyStrip line = ""
    · rw [if_pos hl]; exact hd
    · rw [if_neg hl]; exact hl

/-- The required-field loop skips any prefix of lines that strip to
empty and returns the strip of the first line that does not. -/
theorem get_required_skip (empties : List String) (v : String) (rest : List String)
    (he : ∀ l ∈ empties, pyStrip l = "") (hv : pyStrip v ≠ "") :
    get_required (empties ++ v :: rest) = some (pyStrip v, rest) := by
  induction empties with
  | nil =>
    simp only [List.nil_append, get_required]
    rw [if_neg hv]
  | cons e es ih =>
    simp only [List.cons_append, get_required]
    rw [if_pos (he e (List.mem_cons_self e es))]
    exact ih (fun l hl => he l (List.mem_cons_of_mem e hl))

/-- A successful collection determines the rest of the run. -/
theorem main_collect {input : List String}
    {r : Answers × List String × List PromptCall}
    (hc : collectT input = some r) :
    main input =
      Option.bind (pyInt r.1.refresh_hours) fun hours =>
      some (mkConfig r.1 (hours * 60 * 60 * 1000),
            [Event.makedirs "data",
             Event.writeFile "data/config.json"
               (serialize (mkConfig r.1 (hours * 60 * 60 * 1000)))]) := by
  unfold main
  rw [hc]
  rfl

/-- Inverting a successful run: it came from a successful collection and
a successful integer parse, the configuration is the one built from those
answers, and the effects are exactly directory creation followed by the
single write of the serialized configuration. -/
theorem main_inv {input : List String} {c : Config} {evs : List Event}
    (h : main input = some (c, evs)) :
    ∃ r hours, collectT input = some r ∧
      pyInt r.1.refresh_hours = some hours ∧
      c = mkConfig r.1 (hours * 60 * 60 * 1000) ∧
      evs = [Event.makedirs "data",
             Event.writeFile "data/config.json" (serialize c)] := by
  unfold main at h
  obtain ⟨r, hc, h⟩ := optBind_eq_some h
  obtain ⟨hours, hp, h⟩ := optBind_eq_some h
  have h' := Option.some.inj h
  have hcfg : mkConfig r.1 (hours * 60 * 60 * 1000) = c := congrArg Prod.fst h'
  have hevs : [Event.makedirs "data",
      Event.writeFile "data/config.json"
        (serialize (mkConfig r.1 (hours * 60 * 60 * 1000)))] = evs :=
    congrArg Prod.snd h'
  exact ⟨r, hours, hc, hp, hcfg.symm, by rw [← hevs, hcfg]⟩

/-- Reading back a file just written yields exactly what was written. -/
theorem FS.read_write (fs : FS) (p s : String) :
    (fs.write p s).read p = some s := by
  simp [FS.write, FS.read, List.find?]

/-- Writing the same contents to the same path twice is the same as once. -/
theorem FS.write_write (fs : FS) (p s : String) :
    (fs.write p s).write p s = fs.write p s := by
  simp only [FS.write, FS.mk.injEq, true_and]
  rw [List.filter_cons]
  simp [List.filter_filter]

/-- After `mkdir p`, the directory `p` exists. -/
theorem FS.mem_mkdir_self (fs : FS) (p : String) : p ∈ (fs.mkdir p).dirs := by
  unfold FS.mkdir
  by_cases hp : p ∈ fs.dirs
  · rw [if_pos hp]; exact hp
  · rw [if_neg hp]; exact List.mem_cons_self p fs.dirs

/-- `mkdir` of an existing directory is a no-op. -/
theorem FS.mkdir_of_mem {fs : FS} {p : String} (h : p ∈ fs.dirs) :
    fs.mkdir p = fs := by
  unfold FS.mkdir
  rw [if_pos h]

/-- `write` does not change the set of directories. -/
theorem FS.dirs_write (fs : FS) (p s : String) :
    (fs.write p s).dirs = fs.dirs := rfl

/-! ### Claims -/

/-- C1: if the refresh-hours answer does not parse as an integer, the run
terminates with an error before any file I/O: no directory is created and
the file system — in particular the target path `data/config.json` — is
exactly as it was before the run. -/
theorem refresh_parse_error_no_write (fs : FS) (input : List String)
    (r : Answers × List String × List PromptCall)
    (hc : collectT input = some r) (hp : pyInt r.1.refresh_hours = none) :
    main input = none ∧ runFS fs input = fs := by
  have hm : main input = none := by
    rw [main_collect hc, hp]
    rfl
  refine ⟨hm, ?_⟩
  unfold runFS
  rw [hm]

/-- C1 witness: on a session answering `"abc"` to the refresh prompt, the
run fails and a file system holding a previous `data/config.json` is left
untouched. -/
theorem refresh_parse_error_no_write_witness :
    collectT ["HomeNet", "pw", "", "", "", "", "", "abc"] =
      some (⟨"HomeNet", "pw", "http://httpbin.org/image/jpeg", "Seattle",
             "47.6062", "-122.3321", "fahrenheit", "abc"⟩, [], promptCalls) ∧
    pyInt "abc" = none ∧
    main ["HomeNet", "pw", "", "", "", "", "", "abc"] = none ∧
    runFS ⟨["data"], [("data/config.json", "old contents")]⟩
        ["HomeNet", "pw", "", "", "", "", "", "abc"] =
      ⟨["data"], [("data/config.json", "old contents")]⟩ := by
  have h := refresh_parse_error_no_write
      ⟨["data"], [("data/config.json", "old contents")]⟩
      ["HomeNet", "pw", "", "", "", "", "", "abc"]
      (⟨"HomeNet", "pw", "http://httpbin.org/image/jpeg", "Seattle",
        "47.6062", "-122.3321", "fahrenheit", "abc"⟩, [], promptCalls)
      (by decide) (by decide)
  exact ⟨by decide, by decide, h.1, h.2⟩

/-- C2: whenever the refresh-hours answer parses as an integer `h`, the
run succeeds and the persisted `update.refreshMs` equals `h * 3600000`
exactly. -/
theorem refreshMs_eq_hours_mul (input : List String)
    (r : Answers × List String × List PromptCall) (h : Int)
    (hc : collectT input = some r) (hp : pyInt r.1.refresh_hours = some h) :
    ∃ c evs, main input = some (c, evs) ∧ c.update.refreshMs = h * 3600000 := by
  refine ⟨mkConfig r.1 (h * 60 * 60 * 1000),
    [Event.makedirs "data",
     Event.writeFile "data/config.json"
       (serialize (mkConfig r.1 (h * 60 * 60 * 1000)))], ?_, ?_⟩
  · rw [main_collect hc, hp]
    rfl
  · show h * 60 * 60 * 1000 = h * 3600000
    ring

/-- C2 witness: answering `"24"` yields `refreshMs = 86400000`. -/
theorem refreshMs_eq_hours_mul_witness :
    pyInt "24" = some 24 ∧
    ∃ c evs, main ["a", "b", "", "", "", "", "", "24"] = some (c, evs) ∧
      c.update.refreshMs = 24 * 3600000 :=
  ⟨by decide,
   refreshMs_eq_hours_mul ["a", "b", "", "", "", "", "", "24"]
     (⟨"a", "b", "http://httpbin.org/image/jpeg", "Seattle", "47.6062",
       "-122.3321", "fahrenheit", "24"⟩, [], promptCalls) 24
     (by decide) (by decide)⟩

/-- C3: a prompt with no default re-prompts past every line that strips
to empty and returns exactly the strip of the first non-empty line; the
SSID so obtained is exactly what ends up in the final structure. -/
theorem required_prompt_returns_first_nonempty (empties : List String)
    (v : String) (rest : List String)
    (he : ∀ l ∈ empties, pyStrip l = "") (hv : pyStrip v ≠ "") :
    get_input none (empties ++ v :: rest) = some (pyStrip v, rest) ∧
    ∀ c evs, main (empties ++ v :: rest) = some (c, evs) →
      c.wifi.ssid = pyStrip v := by
  have h1 : get_input none (empties ++ v :: rest) = some (pyStrip v, rest) := by
    rw [get_input_none]
    exact get_required_skip empties v rest he hv
  refine ⟨h1, fun c evs hm => ?_⟩
  obtain ⟨r, hours, hc, hp, hcfg, hevs⟩ := main_inv hm
  obtain ⟨_, i1, _, _, _, _, _, _, g1, _⟩ := collectT_inv hc
  rw [h1] at g1
  have hv1 : pyStrip v = r.1.wifi_ssid :=
    congrArg Prod.fst (Option.some.inj g1)
  rw [hcfg]
  exact hv1.symm

/-- C3 witness: two whitespace-only lines and then `" HomeNet "` yield the
answer `"HomeNet"`, and a completed run stores that SSID. -/
theorem required_prompt_returns_first_nonempty_witness :
    (∀ l ∈ (["", "  "] : List String), pyStrip l = "") ∧
    pyStrip " HomeNet " ≠ "" ∧
    get_input none (["", "  "] ++ " HomeNet " :: ["pw", "", "", "", "", "", ""]) =
      some ("HomeNet", ["pw", "", "", "", "", "", ""]) := by
  have h := required_prompt_returns_first_nonempty ["", "  "] " HomeNet "
      ["pw", "", "", "", "", "", ""] (by decide) (by decide)
  refine ⟨by decide, by decide, ?_⟩
  rw [h.1]
  decide

/-- C4 counterexample: with the empty string as the default, an empty
response does not return the default verbatim — the script re-prompts
instead (Python tests `if default:`, truthiness, not presence), so the
claim fails for the default value `""`. -/
theorem empty_string_default_not_returned :
    get_input (some "") ["", "x"] = some ("x", []) ∧
    get_input (some "") ["", "x"] ≠ some ("", ["x"]) :=
  ⟨by decide, by decide⟩

/-- C4 (amended): for every prompt invoked with a NON-EMPTY default, if
the stripped response is empty the prompt returns the default verbatim,
otherwise it returns the stripped response. -/
theorem nonempty_default_behavior (d : String) (hd : d ≠ "")
    (line : String) (rest : List String) :
    get_input (some d) (line :: rest) =
      some (if pyStrip line = "" then d else pyStrip line, rest) :=
  get_input_default_cons hd line rest

/-- C4 witness: default `"Seattle"`: a whitespace-only response returns
the default verbatim, a non-empty response returns its stripped form. -/
theorem nonempty_default_behavior_witness :
    ("Seattle" : String) ≠ "" ∧
    get_input (some "Seattle") [" "] = some ("Seattle", []) ∧
    get_input (some "Seattle") [" Tacoma "] = some ("Tacoma", []) := by
  refine ⟨by decide, ?_, ?_⟩
  · rw [nonempty_default_behavior "Seattle" (by decide) " " []]
    decide
  · rw [nonempty_default_behavior "Seattle" (by decide) " Tacoma " []]
    decide

/-- C5: on any successful run, every required and defaulted field of the
written configuration is a non-empty string, and the effects are exactly
the directory creation followed by one write of the serialization of the
complete configuration — the object is fully constructed before any file
I/O, so no partially populated configuration is ever written. -/
theorem config_complete_before_write (input : List String) (c : Config)
    (evs : List Event) (h : main input = some (c, evs)) :
    c.wifi.ssid ≠ "" ∧ c.wifi.password ≠ "" ∧ c.server.url ≠ "" ∧
    c.weather.city ≠ "" ∧ c.weather.latitude ≠ "" ∧
    c.weather.longitude ≠ "" ∧ c.weather.units ≠ "" ∧
    evs = [Event.makedirs "data",
           Event.writeFile "data/config.json" (serialize c)] := by
  obtain ⟨r, hours, hc, hp, hcfg, hevs⟩ := main_inv h
  obtain ⟨_, i1, i2, i3, i4, i5, i6, i7, g1, g2, g3, g4, g5, g6, g7, g8⟩ :=
    collectT_inv hc
  rw [get_input_none] at g1 g2
  subst hcfg
  exact ⟨get_required_ne g1, get_required_ne g2,
    get_input_default_ne (by decide) g3, get_input_default_ne (by decide) g4,
    get_input_default_ne (by decide) g5, get_input_default_ne (by decide) g6,
    get_input_default_ne (by decide) g7, hevs⟩

/-- C5 witness: a concrete successful run, with its non-empty SSID and
its exact effect list. -/
theorem config_complete_before_write_witness :
    main ["n", "p", "", "", "", "", "", ""] =
      some (mkConfig ⟨"n", "p", "http://httpbin.org/image/jpeg", "Seattle",
              "47.6062", "-122.3321", "fahrenheit", "24"⟩ 86400000,
        [Event.makedirs "data",
         Event.writeFile "data/config.json"
           (serialize (mkConfig ⟨"n", "p", "http://httpbin.org/image/jpeg",
              "Seattle", "47.6062", "-122.3321", "fahrenheit", "24"⟩ 86400000))]) ∧
    (mkConfig ⟨"n", "p", "http://httpbin.org/image/jpeg", "Seattle",
       "47.6062", "-122.3321", "fahrenheit", "24"⟩ 86400000).wifi.ssid ≠ "" := by
  have hm : main ["n", "p", "", "", "", "", "", ""] =
      some (mkConfig ⟨"n", "p", "http://httpbin.org/image/jpeg", "Seattle",
              "47.6062", "-122.3321", "fahrenheit", "24"⟩ 86400000,
        [Event.makedirs "data",
         Event.writeFile "data/config.json"
           (serialize (mkConfig ⟨"n", "p", "http://httpbin.org/image/jpeg",
              "Seattle", "47.6062", "-122.3321", "fahrenheit", "24"⟩ 86400000))]) := by
    decide
  exact ⟨hm, (config_complete_before_write _ _ _ hm).1⟩

/-- C6: end-to-end — SSID `"HomeNet"`, password `"secret123"`, every
other prompt answered with an empty line: the resulting configuration is
exactly the documented one (defaults everywhere, `refreshMs = 86400000`,
`width = 1200`, `sidebarWidthPct = 20`, `wakeButtonPin = 36`). -/
theorem end_to_end_scenario :
    (main ["HomeNet", "secret123", "", "", "", "", "", ""]).map Prod.fst =
      some ⟨⟨"HomeNet", "secret123"⟩, ⟨"http://httpbin.org/image/jpeg"⟩,
        ⟨"47.6062", "-122.3321", "Seattle", "fahrenheit"⟩,
        ⟨86400000⟩, ⟨1200, 20⟩, ⟨36⟩⟩ := by
  decide

/-- C7: every completed collection phase performs exactly eight prompt
invocations, in the fixed source order and with the fixed defaults:
SSID (required), password (required), image URL, city, latitude,
longitude, units, refresh hours. -/
theorem prompt_order_and_defaults (input : List String)
    (r : Answers × List String × List PromptCall)
    (h : collectT input = some r) :
    r.2.2 = [("WiFi SSID", none), ("WiFi Password", none),
      ("Image URL (JPEG)", some "http://httpbin.org/image/jpeg"),
      ("City name", some "Seattle"), ("Latitude", some "47.6062"),
      ("Longitude", some "-122.3321"),
      ("Temperature units (fahrenheit/celsius)", some "fahrenheit"),
      ("Refresh interval (hours)", some "24")] ∧
    r.2.2.length = 8 := by
  have ht : r.2.2 = promptCalls := (collectT_inv h).1
  exact ⟨ht, by rw [ht]; rfl⟩

/-- C7 witness: the trace of a concrete completed collection. -/
theorem prompt_order_and_defaults_witness :
    collectT ["a", "b", "", "", "", "", "", ""] =
      some (⟨"a", "b", "http://httpbin.org/image/jpeg", "Seattle",
             "47.6062", "-122.3321", "fahrenheit", "24"⟩, [], promptCalls) ∧
    promptCalls.length = 8 := by
  have h := prompt_order_and_defaults ["a", "b", "", "", "", "", "", ""]
      (⟨"a", "b", "http://httpbin.org/image/jpeg", "Seattle",
        "47.6062", "-122.3321", "fahrenheit", "24"⟩, [], promptCalls)
      (by decide)
  exact ⟨by decide, h.2⟩

/-- C8: the written file is a function of the input lines only: any
successful run leaves `data/config.json` holding exactly the
serialization of the configuration derived from the input lines, no
matter what file system the run starts from — so two runs on the same
input lines produce byte-for-byte identical contents, and running twice
changes nothing the second time. -/
theorem output_function_of_input (fs1 fs2 : FS) (input : List String)
    (c : Config) (evs : List Event) (h : main input = some (c, evs)) :
    FS.read (runFS fs1 input) "data/config.json" = some (serialize c) ∧
    FS.read (runFS fs2 input) "data/config.json" = some (serialize c) ∧
    runFS (runFS fs1 input) input = runFS fs1 input := by
  obtain ⟨r, hours, hc, hp, hcfg, hevs⟩ := main_inv h
  have hrun : ∀ fs : FS, runFS fs input =
      (fs.mkdir "data").write "data/config.json" (serialize c) := by
    intro fs
    unfold runFS
    rw [h, hevs]
    rfl
  refine ⟨?_, ?_, ?_⟩
  · rw [hrun fs1]
    exact FS.read_write _ _ _
  · rw [hrun fs2]
    exact FS.read_write _ _ _
  · rw [hrun fs1,
      hrun ((fs1.mkdir "data").write "data/config.json" (serialize c))]
    have hmem : "data" ∈
        ((fs1.mkdir "data").write "data/config.json" (serialize c)).dirs := by
      rw [FS.dirs_write]
      exact FS.mem_mkdir_self fs1 "data"
    rw [FS.mkdir_of_mem hmem, FS.write_write]

/-- C8 witness: a concrete run started from two different file systems
leaves the same contents at `data/config.json`. -/
theorem output_function_of_input_witness :
    main ["n", "p", "", "", "", "x", "", "1"] =
      some (mkConfig ⟨"n", "p", "http://httpbin.org/image/jpeg", "Seattle",
              "47.6062", "x", "fahrenheit", "1"⟩ 3600000,
        [Event.makedirs "data",
         Event.writeFile "data/config.json"
           (serialize (mkConfig ⟨"n", "p", "http://httpbin.org/image/jpeg",
              "Seattle", "47.6062", "x", "fahrenheit", "1"⟩ 3600000))]) ∧
    FS.read (runFS ⟨[], []⟩ ["n", "p", "", "", "", "x", "", "1"]) "data/config.json" =
      some (serialize (mkConfig ⟨"n", "p", "http://httpbin.org/image/jpeg",
        "Seattle", "47.6062", "x", "fahrenheit", "1"⟩ 3600000)) ∧
    FS.read (runFS ⟨["data"], [("data/config.json", "stale")]⟩
        ["n", "p", "", "", "", "x", "", "1"]) "data/config.json" =
      some (serialize (mkConfig ⟨"n", "p", "http://httpbin.org/image/jpeg",
        "Seattle", "47.6062", "x", "fahrenheit", "1"⟩ 3600000)) := by
  have hm : main ["n", "p", "", "", "", "x", "", "1"] =
      some (mkConfig ⟨"n", "p", "http://httpbin.org/image/jpeg", "Seattle",
              "47.6062", "x", "fahrenheit", "1"⟩ 3600000,
        [Event.makedirs "data",
         Event.writeFile "data/config.json"
           (serialize (mkConfig ⟨"n", "p", "http://httpbin.org/image/jpeg",
              "Seattle", "47.6062", "x", "fahrenheit", "1"⟩ 3600000))]) := by
    decide
  have h := output_function_of_input ⟨[], []⟩
      ⟨["data"], [("data/config.json", "stale")]⟩
      ["n", "p", "", "", "", "x", "", "1"] _ _ hm
  exact ⟨hm, h.1, h.2.1⟩

/-- C9: `get_input` tests the default for truthiness, not presence: with
the empty string as default it behaves exactly as with no default (empty
responses are re-prompted and the empty-string default is never
returned), while every non-empty default takes the default branch. -/
theorem empty_default_treated_as_required (d : String) (hd : d ≠ "") :
    (∀ input, get_input (some "") input = get_input none input) ∧
    (∀ input v rest, get_input (some "") input = some (v, rest) → v ≠ "") ∧
    (∀ line rest, get_input (some d) (line :: rest) =
      some (if pyStrip line = "" then d else pyStrip line, rest)) := by
  refine ⟨fun input => rfl, fun input v rest h => ?_,
    fun line rest => get_input_default_cons hd line rest⟩
  rw [get_input_empty_default] at h
  exact get_required_ne h

/-- C9 witness: instantiated at the non-empty default `"x"` and a
concrete session. -/
theorem empty_default_treated_as_required_witness :
    ("x" : String) ≠ "" ∧
    get_input (some "") ["", " a "] = get_input none ["", " a "] ∧
    get_input (some "x") ["", "next"] = some ("x", ["next"]) := by
  have h := empty_default_treated_as_required "x" (by decide)
  refine ⟨by decide, h.1 ["", " a "], ?_⟩
  rw [h.2.2 "" ["next"]]
  decide

/-- C10: the refresh-hours answer is not range-checked: `int()` accepts
surrounding whitespace and a leading sign, and for every answer parsing
as a negative integer the run completes normally and writes the negative
product `hours * 3600000` with no error raised. -/
theorem refresh_hours_not_range_checked :
    (pyInt " -1 " = some (-1) ∧ pyInt "+5" = some 5 ∧ pyInt " 7" = some 7) ∧
    ∀ (input : List String) (r : Answers × List String × List PromptCall)
      (h : Int), collectT input = some r →
      pyInt r.1.refresh_hours = some h → h < 0 →
      ∃ c evs, main input = some (c, evs) ∧
        c.update.refreshMs = h * 3600000 ∧ c.update.refreshMs < 0 := by
  refine ⟨⟨by decide, by decide, by decide⟩, fun input r h hc hp hneg => ?_⟩
  refine ⟨mkConfig r.1 (h * 60 * 60 * 1000),
    [Event.makedirs "data",
     Event.writeFile "data/config.json"
       (serialize (mkConfig r.1 (h * 60 * 60 * 1000)))], ?_, ?_, ?_⟩
  · rw [main_collect hc, hp]
    rfl
  · show h * 60 * 60 * 1000 = h * 3600000
    ring
  · show h * 60 * 60 * 1000 < 0
    have he : h * 60 * 60 * 1000 = h * 3600000 := by ring
    rw [he]
    exact mul_neg_of_neg_of_pos hneg (by norm_num)

/-- C10 witness: answering `"-1"` to the refresh prompt completes the run
with `refreshMs = -3600000`. -/
theorem refresh_hours_not_range_checked_witness :
    pyInt "-1" = some (-1) ∧ ((-1 : Int) < 0) ∧
    ∃ c evs, main ["s", "p", "", "", "", "", "", "-1"] = some (c, evs) ∧
      c.update.refreshMs = (-1) * 3600000 ∧ c.update.refreshMs < 0 :=
  ⟨by decide, by decide,
   refresh_hours_not_range_checked.2 ["s", "p", "", "", "", "", "", "-1"]
     (⟨"s", "p", "http://httpbin.org/image/jpeg", "Seattle", "47.6062",
       "-122.3321", "fahrenheit", "-1"⟩, [], promptCalls) (-1)
     (by decide) (by decide) (by decide)⟩

end Inkflow

